import Mathlib

/-!
Shallow embedding of `src/python/ee/data.py`, the Earth Engine data module:
the mutable singleton configuration, the URL helpers, the request builders
and the generic `send_` operation, together with theorems checking the
module's specification against this embedding.

Conventions of the embedding:
* the mutable module globals become an explicit `Config` value threaded
  through the operations; an operation that mutates a caller-supplied
  Python dict returns the dict's final state in its outcome;
* Python dicts of request parameters become association lists with
  dict-update semantics (`setP` overwrites, `eraseP` removes);
* the HTTP round trip becomes a `transport` function argument; the requests
  actually executed are collected in the outcome, so "no network call"
  is expressible;
* Python exceptions become an explicit `PyError` sum carried in `Except`.
-/

namespace EEData

/-- Python values that occur in request parameter dictionaries:
strings, integers and sequences (lists or tuples). -/
inductive PyVal where
  | str : String → PyVal
  | int : Int → PyVal
  | list : List PyVal → PyVal

/-- A Python dict of request parameters, as an association list. -/
abbrev Params := List (String × PyVal)

/-- Dict lookup: first binding of the key, if any. -/
def getP : Params → String → Option PyVal
  | [], _ => none
  | (k, v) :: ps, key => if k = key then some v else getP ps key

/-- Dict assignment `d[key] = v`: overwrite the binding if the key is
present, otherwise append it. -/
def setP : Params → String → PyVal → Params
  | [], key, v => [(key, v)]
  | (k, w) :: ps, key, v =>
      if k = key then (key, v) :: ps else (k, w) :: setP ps key v

/-- Dict removal `d.pop(key, ...)`: drop every binding of the key. -/
def eraseP (ps : Params) (key : String) : Params :=
  ps.filter (fun p => !(p.1 == key))

/-- JSON values, as produced by `json.loads`. -/
inductive Json where
  | null : Json
  | bool : Bool → Json
  | num : Int → Json
  | str : String → Json
  | arr : List Json → Json
  | obj : List (String × Json) → Json

/-- Lookup of a key in a parsed JSON object. -/
def getJ (kvs : List (String × Json)) (key : String) : Option Json :=
  match kvs with
  | [] => none
  | (k, v) :: rest => if k = key then some v else getJ rest key

/-- Object-build step used by the parser: later duplicate keys overwrite
earlier ones, as in `json.loads`. -/
def setJ : List (String × Json) → String → Json → List (String × Json)
  | [], key, v => [(key, v)]
  | (k, w) :: ps, key, v =>
      if k = key then (key, v) :: ps else (k, w) :: setJ ps key v

/-- `sep.join(items)` of Python. -/
def joinSep (sep : String) : List String → String
  | [] => ""
  | [s] => s
  | s :: rest => s ++ sep ++ joinSep sep rest

/-- Python `repr` of a parameter value (used by `str` on sequences). -/
def pyRepr : PyVal → String
  | .str s => String.singleton (Char.ofNat 39) ++ s ++ String.singleton (Char.ofNat 39)
  | .int n => toString n
  | .list l => "[" ++ joinSep ", " (reprList l) ++ "]"
where reprList : List PyVal → List String
  | [] => []
  | v :: vs => pyRepr v :: reprList vs

/-- Python `str` of a parameter value. -/
def pyStr : PyVal → String
  | .str s => s
  | .int n => toString n
  | .list l => "[" ++ joinSep ", " (pyRepr.reprList l) ++ "]"

/-- One hexadecimal digit, upper case. -/
def hexDigit (n : Nat) : Char :=
  if n < 10 then Char.ofNat (48 + n) else Char.ofNat (55 + n)

/-- `urllib.quote_plus`: keep ASCII alphanumerics and `_.-`, turn a space
into `+`, percent-encode everything else. -/
def quote_plus (s : String) : String :=
  String.join (s.toList.map fun c =>
    if c.isAlphanum || c == '_' || c == '.' || c == '-' then String.singleton c
    else if c == ' ' then "+"
    else "%" ++ String.singleton (hexDigit (c.toNat / 16)) ++
      String.singleton (hexDigit (c.toNat % 16)))

/-- `urllib.urlencode`: form-encode the parameter dictionary. -/
def urlencode (ps : Params) : String :=
  joinSep "&" (ps.map fun p => quote_plus p.1 ++ "=" ++ quote_plus (pyStr p.2))

/-- Whitespace characters recognised by the JSON parser and by `strip`. -/
def isWs (c : Char) : Bool :=
  c == ' ' || c == '\t' || c == '\n' || c == '\r'

/-- Drop leading whitespace. -/
def skipWs : List Char → List Char
  | [] => []
  | c :: cs => if isWs c then skipWs cs else c :: cs

/-- Strip whitespace from both ends, as `float` does with its argument. -/
def trimChars (cs : List Char) : List Char :=
  ((skipWs ((skipWs cs).reverse)).reverse)

/-- Split a character list on the dot character. -/
def splitOnDot : List Char → List (List Char)
  | [] => [[]]
  | c :: cs =>
    let rest := splitOnDot cs
    if c == '.' then [] :: rest
    else
      match rest with
      | [] => [[c]]
      | g :: gs => (c :: g) :: gs

/-- All characters are decimal digits. -/
def allDigits (cs : List Char) : Bool := cs.all Char.isDigit

/-- Decimal value of a digit list. -/
def natOfDigits (cs : List Char) : Nat :=
  cs.foldl (fun a c => a * 10 + (c.toNat - 48)) 0

/-- Python exceptions that the module can raise. -/
inductive PyError where
  | eeException : Json → PyError
  | typeError : String → PyError
  | valueError : String → PyError
  | keyError : String → PyError

/-- `float` applied to a decimal string literal, on exact rationals. -/
def pyFloatStr (s : String) : Option ℚ :=
  let cs := trimChars s.toList
  let signed : Bool × List Char :=
    match cs with
    | c :: rest => if c == '-' then (true, rest) else (false, cs)
    | [] => (false, [])
  let body := signed.2
  let finish : ℚ → Option ℚ := fun q => some (if signed.1 then -q else q)
  match splitOnDot body with
  | [a] =>
      if a ≠ [] ∧ allDigits a = true then finish (natOfDigits a : ℚ) else none
  | [a, b] =>
      if ¬(a = [] ∧ b = []) ∧ allDigits a = true ∧ allDigits b = true then
        finish ((natOfDigits a : ℚ) + (natOfDigits b : ℚ) / (10 : ℚ) ^ b.length)
      else none
  | _ => none

/-- Python `float()` on a parameter value: exact on the integers and
decimal string literals the module uses; a sequence raises `TypeError`,
an unparsable string raises `ValueError`. -/
def pyFloat : PyVal → Except PyError ℚ
  | .int n => .ok (n : ℚ)
  | .str s =>
      match pyFloatStr s with
      | some q => .ok q
      | none => .error (.valueError ("could not convert string to float: " ++ s))
  | .list _ => .error (.typeError "float() argument must be a string or a number")

/-- The pattern list occurs at the head of the text list. -/
def headMatches : List Char → List Char → Bool
  | [], _ => true
  | _ :: _, [] => false
  | a :: as, b :: bs => a == b && headMatches as bs

/-- The pattern list occurs somewhere in the text list. -/
def occursIn (pat : List Char) : List Char → Bool
  | [] => pat.isEmpty
  | c :: rest => headMatches pat (c :: rest) || occursIn pat rest

/-- Python `key in value` on a decoded JSON value: key lookup on a dict,
substring test on a string, membership on a list; `TypeError` otherwise. -/
def pyIn (key : String) : Json → Except PyError Bool
  | .obj kvs => .ok (getJ kvs key).isSome
  | .str s => .ok (occursIn key.toList s.toList)
  | .arr l => .ok (l.any fun j => match j with | .str s => s == key | _ => false)
  | _ => .error (.typeError "argument of type is not iterable")

/-- Python `value[key]` on a decoded JSON value. -/
def pyIndex (key : String) : Json → Except PyError Json
  | .obj kvs =>
      match getJ kvs key with
      | some v => .ok v
      | none => .error (.keyError key)
  | _ => .error (.typeError "indices must be integers")

/-- Python `+` between a literal string and a decoded JSON value: only a
string right operand concatenates; anything else raises `TypeError`. -/
def strPlusJson (s : String) : Json → Except PyError String
  | .str t => .ok (s ++ t)
  | _ => .error (.typeError "cannot concatenate str and dict objects")

/-- Lines 358-363 of `data.py`: the JSON envelope unwrapping performed by
`send_` after a 200 response, on the already-parsed content. -/
def unwrapEnvelope (content : Json) : Except PyError Json :=
  match pyIn "error" content with
  | .error e => .error e
  | .ok true =>
      match pyIndex "error" content with
      | .error e => .error e
      | .ok v => .error (.eeException v)
  | .ok false =>
      match pyIn "data" content with
      | .error e => .error e
      | .ok false =>
          match strPlusJson "Missing data in response: " content with
          | .error e => .error e
          | .ok m => .error (.eeException (.str m))
      | .ok true =>
          match pyIndex "data" content with
          | .error e => .error e
          | .ok v => .ok v

/-- The consumed digits and the remaining characters. -/
def takeDigits : List Char → List Char × List Char
  | [] => ([], [])
  | c :: cs =>
      if c.isDigit then
        let p := takeDigits cs
        (c :: p.1, p.2)
      else ([], c :: cs)

/-- Body of a JSON string literal after the opening quote, with the basic
escape sequences. -/
def parseStringBody : List Char → Option (String × List Char)
  | [] => none
  | '"' :: cs => some ("", cs)
  | '\\' :: c :: cs =>
      (match c with
        | '"' => some "\""
        | '\\' => some "\\"
        | '/' => some "/"
        | 'n' => some "\n"
        | 't' => some "\t"
        | 'r' => some "\r"
        | _ => none).bind fun e =>
      (parseStringBody cs).bind fun p =>
      some (e ++ p.1, p.2)
  | c :: cs =>
      (parseStringBody cs).bind fun p =>
      some (String.singleton c ++ p.1, p.2)

mutual

/-- A JSON value, by recursion on a character-count fuel. -/
def parseVal : Nat → List Char → Option (Json × List Char)
  | 0, _ => none
  | Nat.succ fuel, cs =>
    match skipWs cs with
    | [] => none
    | c :: rest =>
      if c == Char.ofNat 123 then parseObj fuel rest
      else if c == '[' then parseArr fuel rest
      else if c == '"' then
        (parseStringBody rest).bind fun p => some (Json.str p.1, p.2)
      else if c == 'n' then
        match rest with
        | 'u' :: 'l' :: 'l' :: r => some (Json.null, r)
        | _ => none
      else if c == 't' then
        match rest with
        | 'r' :: 'u' :: 'e' :: r => some (Json.bool true, r)
        | _ => none
      else if c == 'f' then
        match rest with
        | 'a' :: 'l' :: 's' :: 'e' :: r => some (Json.bool false, r)
        | _ => none
      else if c == '-' then
        match takeDigits rest with
        | ([], _) => none
        | (ds, r) => some (Json.num (-(natOfDigits ds : Int)), r)
      else if c.isDigit then
        match takeDigits (c :: rest) with
        | ([], _) => none
        | (ds, r) => some (Json.num (natOfDigits ds : Int), r)
      else none

/-- A JSON object right after the opening brace. -/
def parseObj : Nat → List Char → Option (Json × List Char)
  | 0, _ => none
  | Nat.succ fuel, cs =>
    match skipWs cs with
    | [] => none
    | c :: rest =>
      if c == Char.ofNat 125 then some (Json.obj [], rest)
      else parseMembers fuel (c :: rest) []

/-- The members of a JSON object, accumulating with dict semantics. -/
def parseMembers : Nat → List Char → List (String × Json) →
    Option (Json × List Char)
  | 0, _, _ => none
  | Nat.succ fuel, cs, acc =>
    match skipWs cs with
    | '"' :: rest =>
      (parseStringBody rest).bind fun pk =>
      match skipWs pk.2 with
      | ':' :: rest2 =>
        (parseVal fuel rest2).bind fun pv =>
        let acc2 := setJ acc pk.1 pv.1
        (match skipWs pv.2 with
          | ',' :: rest3 => parseMembers fuel rest3 acc2
          | c :: rest3 =>
              if c == Char.ofNat 125 then some (Json.obj acc2, rest3) else none
          | [] => none)
      | _ => none
    | _ => none

/-- A JSON array right after the opening bracket. -/
def parseArr : Nat → List Char → Option (Json × List Char)
  | 0, _ => none
  | Nat.succ fuel, cs =>
    match skipWs cs with
    | [] => none
    | c :: rest =>
      if c == ']' then some (Json.arr [], rest)
      else parseItems fuel (c :: rest) []

/-- The items of a JSON array. -/
def parseItems : Nat → List Char → List Json → Option (Json × List Char)
  | 0, _, _ => none
  | Nat.succ fuel, cs, acc =>
    (parseVal fuel cs).bind fun pv =>
    match skipWs pv.2 with
    | ',' :: rest => parseItems fuel rest (acc ++ [pv.1])
    | ']' :: rest => some (Json.arr (acc ++ [pv.1]), rest)
    | _ => none

end

/-- `json.loads`: parse a whole string as a JSON value. -/
def jsonLoads (s : String) : Option Json :=
  match parseVal (4 * (s.toList.length + 1)) s.toList with
  | some (j, rest) => if (skipWs rest).isEmpty then some j else none
  | none => none

/-- The module's mutable globals: `_credentials`, `_api_base_url`,
`_tile_base_url` and `_initialized`. -/
structure Config where
  credentials : Option String
  apiBaseUrl : Option String
  tileBaseUrl : Option String
  initialized : Bool

/-- `DEFAULT_DEADLINE = 30`. -/
def DEFAULT_DEADLINE : Int := 30

/-- `DEFAULT_API_BASE_URL`. -/
def DEFAULT_API_BASE_URL : String := "https://earthengine.googleapis.com/api"

/-- `DEFAULT_TILE_BASE_URL`. -/
def DEFAULT_TILE_BASE_URL : String := "https://earthengine.googleapis.com/"

/-- `initialize(credentials, api_base_url, tile_base_url)`: overwrite each
field whose argument is supplied; an unsupplied field keeps its old value,
or receives its default when the module was never initialized. -/
def initializeConfig (cfg : Config) (credentials api_base_url tile_base_url : Option String) :
    Config :=
  let c :=
    match credentials with
    | some v => some v
    | none => cfg.credentials
  let a :=
    match api_base_url with
    | some v => some v
    | none => if cfg.initialized then cfg.apiBaseUrl else some DEFAULT_API_BASE_URL
  let t :=
    match tile_base_url with
    | some v => some v
    | none => if cfg.initialized then cfg.tileBaseUrl else some DEFAULT_TILE_BASE_URL
  { credentials := c, apiBaseUrl := a, tileBaseUrl := t, initialized := true }

/-- `reset()`: unconditionally clear credentials, both URLs and the
initialized flag. -/
def reset (_ : Config) : Config :=
  { credentials := none, apiBaseUrl := none, tileBaseUrl := none, initialized := false }

/-- The module state at import time, before any call. -/
def importState : Config :=
  { credentials := none, apiBaseUrl := none, tileBaseUrl := none, initialized := false }

/-- Python `'%s' % v` where `v` is an optional string: `None` prints as
the four-character string. -/
def formatS : Option String → String
  | some s => s
  | none => "None"

/-- An HTTP request as handed to `httplib2`: URL, method, optional body,
headers, whether credentials were attached, and the timeout in seconds. -/
structure Request where
  url : String
  method : String
  body : Option String
  headers : List (String × String)
  authorized : Bool
  timeout : ℚ

/-- What the transport does with a request: a response (status and body)
or a raised `httplib2.HttpLib2Error` with a message. -/
inductive TransportResult where
  | ok : Int → String → TransportResult
  | exn : String → TransportResult

/-- The value a successful `send_` returns: raw content or decoded data. -/
inductive SendValue where
  | raw : String → SendValue
  | data : Json → SendValue

/-- The outcome of a `send_`-based call: the returned value or raised
error, the final state of the caller-supplied parameter dict, and the
HTTP requests that were actually executed. -/
structure SendOutcome where
  result : Except PyError SendValue
  finalParams : Params
  requests : List Request

/-- Lines 345-363 of `data.py`: execute the request and validate and
unwrap the response. -/
def runRequest (transport : Request → TransportResult) (req : Request)
    (opt_raw : Bool) (ps : Params) : SendOutcome :=
  match transport req with
  | .exn msg =>
      ⟨.error (.eeException (.str ("Unexpected HTTP error: " ++ msg))), ps, [req]⟩
  | .ok status content =>
      if status = 200 then
        if opt_raw then ⟨.ok (.raw content), ps, [req]⟩
        else
          match jsonLoads content with
          | none => ⟨.error (.valueError "No JSON object could be decoded"), ps, [req]⟩
          | some j =>
              match unwrapEnvelope j with
              | .error e => ⟨.error e, ps, [req]⟩
              | .ok v => ⟨.ok (.data v), ps, [req]⟩
      else
        ⟨.error (.eeException (.str ("Server returned HTTP code: " ++ toString status))),
          ps, [req]⟩

/-- `send_(path, params, opt_method, opt_raw)`: lazy initialization, URL
construction, deadline extraction, parameter encoding, method dispatch,
then the HTTP round trip. -/
def send_ (cfg : Config) (transport : Request → TransportResult) (path : String)
    (params : Params) (opt_method : String) (opt_raw : Bool) : SendOutcome :=
  let cfg2 := initializeConfig cfg none none none
  match cfg2.apiBaseUrl with
  | none => ⟨.error (.typeError "unsupported operand types: NoneType and str"), params, []⟩
  | some base =>
    let url := base ++ path
    let dval := (getP params "deadline").getD (PyVal.int DEFAULT_DEADLINE)
    let params2 := eraseP params "deadline"
    match pyFloat dval with
    | .error e => ⟨.error e, params2, []⟩
    | .ok deadline =>
      let payload := urlencode params2
      if opt_method = "GET" then
        runRequest transport
          ⟨url ++ "?" ++ payload, "GET", none, [], cfg2.credentials.isSome, deadline⟩
          opt_raw params2
      else if opt_method = "POST" then
        runRequest transport
          ⟨url, "POST", some payload,
            [("Content-type", "application/x-www-form-urlencoded")],
            cfg2.credentials.isSome, deadline⟩
          opt_raw params2
      else
        ⟨.error (.eeException (.str ("Unexpected request method: " ++ opt_method))),
          params2, []⟩

/-- `getMapId(params)`: add the format tag in place and post to `/mapid`. -/
def getMapId (cfg : Config) (transport : Request → TransportResult)
    (params : Params) : SendOutcome :=
  send_ cfg transport "/mapid" (setP params "json_format" (PyVal.str "v2")) "POST" false

/-- `getValue(params)`: add the format tag in place and post to `/value`. -/
def getValue (cfg : Config) (transport : Request → TransportResult)
    (params : Params) : SendOutcome :=
  send_ cfg transport "/value" (setP params "json_format" (PyVal.str "v2")) "POST" false

/-- `getDownloadId(params)`: add the format tag in place and post to
`/download`. -/
def getDownloadId (cfg : Config) (transport : Request → TransportResult)
    (params : Params) : SendOutcome :=
  send_ cfg transport "/download" (setP params "json_format" (PyVal.str "v2")) "POST" false

/-- Lines 204-208 of `data.py`: the request dict `getThumbId` builds from
a copy of its argument. -/
def thumbRequestParams (params : Params) : Params :=
  let request := setP params "getid" (PyVal.str "1")
  let request := setP request "json_format" (PyVal.str "v2")
  match getP request "size" with
  | some (PyVal.list l) => setP request "size" (PyVal.str (joinSep "x" (l.map pyStr)))
  | _ => request

/-- `getThumbId(params)`: work on a copy of the caller's dict, so the
final caller dict is the argument itself. -/
def getThumbId (cfg : Config) (transport : Request → TransportResult)
    (params : Params) : SendOutcome :=
  let o := send_ cfg transport "/thumb" (thumbRequestParams params) "POST" false
  ⟨o.result, params, o.requests⟩

/-- The dict argument of `getTileUrl`: a mapid and a token. -/
structure MapId where
  mapid : String
  token : String

/-- The dict argument of `makeThumbUrl`. -/
structure ThumbId where
  thumbid : String
  token : String

/-- The dict argument of `makeDownloadUrl`. -/
structure DownloadId where
  docid : String
  token : String

/-- `getTileUrl(mapid, x, y, z)`: wrap the x coordinate modulo `2 ** z`
and format the tile URL template. -/
def getTileUrl (cfg : Config) (m : MapId) (x y : Int) (z : Nat) : String :=
  let width : Int := 2 ^ z
  let x1 : Int := x % width
  let x2 : Int := if x1 < 0 then x1 + width else x1
  formatS cfg.tileBaseUrl ++ "/map/" ++ m.mapid ++ "/" ++ toString z ++ "/" ++
    toString x2 ++ "/" ++ toString y ++ "?token=" ++ m.token

/-- `makeThumbUrl(thumbId)`. -/
def makeThumbUrl (cfg : Config) (t : ThumbId) : String :=
  formatS cfg.tileBaseUrl ++ "/api/thumb?thumbid=" ++ t.thumbid ++ "&token=" ++ t.token

/-- `makeDownloadUrl(downloadId)`. -/
def makeDownloadUrl (cfg : Config) (d : DownloadId) : String :=
  formatS cfg.tileBaseUrl ++ "/api/download?docid=" ++ d.docid ++ "&token=" ++ d.token

/-! Helper lemmas about the dictionary operations. -/

theorem getP_setP_self (ps : Params) (key : String) (v : PyVal) :
    getP (setP ps key v) key = some v := by
  induction ps with
  | nil => simp [setP, getP]
  | cons p rest ih =>
    obtain ⟨k, w⟩ := p
    by_cases h : k = key
    · subst h
      simp [setP, getP]
    · simp [setP, h, getP, ih]

theorem getP_setP_ne (ps : Params) (key key2 : String) (v : PyVal)
    (h : ¬(key2 = key)) : getP (setP ps key v) key2 = getP ps key2 := by
  have h' : ¬(key = key2) := fun hh => h (hh.symm)
  induction ps with
  | nil => simp [setP, getP, h']
  | cons p rest ih =>
    obtain ⟨k, w⟩ := p
    by_cases hp : k = key
    · subst hp
      simp [setP, getP, h']
    · simp [setP, hp, getP, ih]

theorem mem_eraseP (ps : Params) (key : String) (kv : String × PyVal)
    (h : kv ∈ eraseP ps key) : ¬(kv.1 = key) := by
  have := List.of_mem_filter h
  simpa using this

theorem getP_eraseP (ps : Params) (key : String) :
    getP (eraseP ps key) key = none := by
  induction ps with
  | nil => simp [eraseP, getP]
  | cons p rest ih =>
    obtain ⟨k, w⟩ := p
    by_cases h : k = key
    · simp only [eraseP, List.filter_cons] at ih ⊢
      simp [h, ih]
    · simp only [eraseP, List.filter_cons] at ih ⊢
      simp [Bool.not_eq_true', beq_eq_false_iff_ne, h, getP, ih]

/-! Helper lemmas about `runRequest` and `send_`. -/

theorem runRequest_finalParams (transport : Request → TransportResult)
    (req : Request) (raw : Bool) (ps : Params) :
    (runRequest transport req raw ps).finalParams = ps := by
  unfold runRequest
  cases transport req with
  | exn m => rfl
  | ok s c =>
    dsimp only
    split
    · split
      · rfl
      · split
        · rfl
        · split <;> rfl
    · rfl

theorem runRequest_requests (transport : Request → TransportResult)
    (req : Request) (raw : Bool) (ps : Params) :
    (runRequest transport req raw ps).requests = [req] := by
  unfold runRequest
  cases transport req with
  | exn m => rfl
  | ok s c =>
    dsimp only
    split
    · split
      · rfl
      · split
        · rfl
        · split <;> rfl
    · rfl

theorem send_finalParams_eq (cfg : Config) (transport : Request → TransportResult)
    (path : String) (params : Params) (method : String) (raw : Bool) (base : String)
    (hbase : (initializeConfig cfg none none none).apiBaseUrl = some base) :
    (send_ cfg transport path params method raw).finalParams = eraseP params "deadline" := by
  unfold send_
  dsimp only
  rw [hbase]
  dsimp only
  cases hf : pyFloat ((getP params "deadline").getD (PyVal.int DEFAULT_DEADLINE)) with
  | error e => rfl
  | ok d =>
    dsimp only
    by_cases hg : method = "GET"
    · simp [hg, runRequest_finalParams]
    · by_cases hp : method = "POST"
      · simp [hg, hp, runRequest_finalParams]
      · simp [hg, hp]

theorem send_unfold_get (cfg : Config) (transport : Request → TransportResult)
    (path : String) (params : Params) (raw : Bool) (base : String) (d : ℚ)
    (hbase : (initializeConfig cfg none none none).apiBaseUrl = some base)
    (hdl : pyFloat ((getP params "deadline").getD (PyVal.int DEFAULT_DEADLINE)) = Except.ok d) :
    send_ cfg transport path params "GET" raw =
      runRequest transport
        { url := base ++ path ++ "?" ++ urlencode (eraseP params "deadline"),
          method := "GET", body := none, headers := [],
          authorized := (initializeConfig cfg none none none).credentials.isSome,
          timeout := d }
        raw (eraseP params "deadline") := by
  unfold send_
  dsimp only
  rw [hbase, hdl]
  simp

theorem send_unfold_post (cfg : Config) (transport : Request → TransportResult)
    (path : String) (params : Params) (raw : Bool) (base : String) (d : ℚ)
    (hbase : (initializeConfig cfg none none none).apiBaseUrl = some base)
    (hdl : pyFloat ((getP params "deadline").getD (PyVal.int DEFAULT_DEADLINE)) = Except.ok d) :
    send_ cfg transport path params "POST" raw =
      runRequest transport
        { url := base ++ path, method := "POST",
          body := some (urlencode (eraseP params "deadline")),
          headers := [("Content-type", "application/x-www-form-urlencoded")],
          authorized := (initializeConfig cfg none none none).credentials.isSome,
          timeout := d }
        raw (eraseP params "deadline") := by
  unfold send_
  dsimp only
  rw [hbase, hdl]
  simp

theorem send_unfold_other (cfg : Config) (transport : Request → TransportResult)
    (path : String) (params : Params) (method : String) (raw : Bool) (base : String) (d : ℚ)
    (hbase : (initializeConfig cfg none none none).apiBaseUrl = some base)
    (hdl : pyFloat ((getP params "deadline").getD (PyVal.int DEFAULT_DEADLINE)) = Except.ok d)
    (hg : ¬(method = "GET")) (hp : ¬(method = "POST")) :
    send_ cfg transport path params method raw =
      ⟨Except.error (PyError.eeException (Json.str ("Unexpected request method: " ++ method))),
        eraseP params "deadline", []⟩ := by
  unfold send_
  dsimp only
  rw [hbase, hdl]
  simp [hg, hp]

theorem unwrapEnvelope_obj (kvs : List (String × Json)) :
    unwrapEnvelope (Json.obj kvs) =
      match getJ kvs "error" with
      | some v => Except.error (PyError.eeException v)
      | none =>
        match getJ kvs "data" with
        | some v => Except.ok v
        | none => Except.error
            (PyError.typeError "cannot concatenate str and dict objects") := by
  unfold unwrapEnvelope
  cases he : getJ kvs "error" with
  | some v => simp [pyIn, pyIndex, he]
  | none =>
    cases hd : getJ kvs "data" with
    | some v => simp [pyIn, pyIndex, strPlusJson, he, hd]
    | none => simp [pyIn, pyIndex, strPlusJson, he, hd]

theorem runRequest_200_result (transport : Request → TransportResult)
    (req : Request) (content : String) (ps : Params)
    (ht : transport req = TransportResult.ok 200 content) :
    (runRequest transport req false ps).result =
      match jsonLoads content with
      | none => Except.error (PyError.valueError "No JSON object could be decoded")
      | some j =>
        match unwrapEnvelope j with
        | Except.error e => Except.error e
        | Except.ok v => Except.ok (SendValue.data v) := by
  unfold runRequest
  rw [ht]
  cases hj : jsonLoads content with
  | none => simp [hj]
  | some j => cases hu : unwrapEnvelope j <;> simp [hj, hu]

theorem runRequest_exn_result (transport : Request → TransportResult) (req : Request)
    (msg : String) (raw : Bool) (ps : Params)
    (ht : transport req = TransportResult.exn msg) :
    (runRequest transport req raw ps).result
      = Except.error (PyError.eeException (Json.str ("Unexpected HTTP error: " ++ msg))) := by
  unfold runRequest
  rw [ht]

/-! The claims. -/

/-- C6: `reset()` unconditionally clears the credentials, both base URLs
and the initialized flag, and a following `initialize()` with no arguments
repopulates the API and tile base URLs with their two distinct documented
default constants and marks the module initialized. -/
theorem claim6_reset_then_default_init :
    (∀ cfg : Config, reset cfg =
      { credentials := none, apiBaseUrl := none, tileBaseUrl := none,
        initialized := false })
  ∧ (∀ cfg : Config, initializeConfig (reset cfg) none none none =
      { credentials := none, apiBaseUrl := some DEFAULT_API_BASE_URL,
        tileBaseUrl := some DEFAULT_TILE_BASE_URL, initialized := true })
  ∧ ¬(DEFAULT_API_BASE_URL = DEFAULT_TILE_BASE_URL) :=
  ⟨fun _ => rfl, fun _ => rfl, by decide⟩

/-- C3: once the module is initialized, a further `initialize` call
overwrites exactly the fields whose arguments are supplied and leaves the
others unchanged; in particular supplying only the API base URL after a
call that supplied only the tile base URL keeps the tile base URL and the
credentials and overwrites the API base URL. -/
theorem claim3_initialize_merge (cfg : Config) (h : cfg.initialized = true)
    (c a t : Option String) (X Y : String) :
    ((initializeConfig cfg c a t).credentials = if c.isSome then c else cfg.credentials)
  ∧ ((initializeConfig cfg c a t).apiBaseUrl = if a.isSome then a else cfg.apiBaseUrl)
  ∧ ((initializeConfig cfg c a t).tileBaseUrl = if t.isSome then t else cfg.tileBaseUrl)
  ∧ ((initializeConfig cfg c a t).initialized = true)
  ∧ ((initializeConfig (initializeConfig cfg none none (some Y)) none (some X) none).apiBaseUrl
      = some X)
  ∧ ((initializeConfig (initializeConfig cfg none none (some Y)) none (some X) none).tileBaseUrl
      = some Y)
  ∧ ((initializeConfig (initializeConfig cfg none none (some Y)) none (some X) none).credentials
      = cfg.credentials) := by
  refine ⟨?_, ?_, ?_, rfl, rfl, ?_, rfl⟩
  · cases c <;> simp [initializeConfig]
  · cases a <;> simp [initializeConfig, h]
  · cases t <;> simp [initializeConfig, h]
  · simp [initializeConfig]

/-- Witness for C3 at a concrete initialized configuration. -/
theorem claim3_initialize_merge_witness :
    ({ credentials := some "c0", apiBaseUrl := some "a0", tileBaseUrl := some "b0",
        initialized := true } : Config).initialized = true
  ∧ (initializeConfig
      (initializeConfig
        { credentials := some "c0", apiBaseUrl := some "a0", tileBaseUrl := some "b0",
          initialized := true } none none (some "Y")) none (some "X") none).tileBaseUrl
      = some "Y" :=
  ⟨rfl,
    (claim3_initialize_merge
      { credentials := some "c0", apiBaseUrl := some "a0", tileBaseUrl := some "b0",
        initialized := true } rfl none none none "X" "Y").2.2.2.2.2.1⟩

/-- C4: `getTileUrl` normalizes the x coordinate into the interval from 0
to `2 ^ z` by floored modulo, so x = -1 and x = `2 ^ z - 1` give the same
URL, as do x = `2 ^ z` and x = 0; the result is the tile URL template with
the normalized x and with y and z substituted unchanged. -/
theorem claim4_getTileUrl_wraparound (cfg : Config) (m : MapId) (x y : Int) (z : Nat) :
    (getTileUrl cfg m x y z =
      formatS cfg.tileBaseUrl ++ "/map/" ++ m.mapid ++ "/" ++ toString z ++ "/" ++
        toString (Int.fmod x (2 ^ z)) ++ "/" ++ toString y ++ "?token=" ++ m.token)
  ∧ 0 ≤ Int.fmod x (2 ^ z) ∧ Int.fmod x (2 ^ z) < 2 ^ z
  ∧ getTileUrl cfg m (-1) y z = getTileUrl cfg m (2 ^ z - 1) y z
  ∧ getTileUrl cfg m (2 ^ z) y z = getTileUrl cfg m 0 y z := by
  have wpos : (0 : Int) < 2 ^ z := pow_pos (by norm_num) z
  have wne : (2 : Int) ^ z ≠ 0 := ne_of_gt wpos
  have hem : ∀ u : Int, Int.fmod u (2 ^ z) = u % 2 ^ z :=
    fun u => Int.fmod_eq_emod u (le_of_lt wpos)
  have hnn : ∀ u : Int, ¬(u % (2 ^ z : Int) < 0) :=
    fun u => not_lt.mpr (Int.emod_nonneg u wne)
  refine ⟨?_, ?_, ?_, ?_, ?_⟩
  · unfold getTileUrl
    dsimp only
    rw [if_neg (hnn x), hem]
  · rw [hem]
    exact Int.emod_nonneg x wne
  · rw [hem]
    exact Int.emod_lt_of_pos x wpos
  · unfold getTileUrl
    dsimp only
    rw [if_neg (hnn (-1)), if_neg (hnn (2 ^ z - 1))]
    have hx : (-1 : Int) % 2 ^ z = (2 ^ z - 1) % 2 ^ z := by
      conv_lhs => rw [show (-1 : Int) = 2 ^ z - 1 + 2 ^ z * (-1) by ring]
      rw [Int.add_mul_emod_self_left]
    rw [hx]
  · unfold getTileUrl
    dsimp only
    rw [if_neg (hnn (2 ^ z)), if_neg (hnn 0)]
    have hx : (2 ^ z : Int) % 2 ^ z = 0 % 2 ^ z := by
      rw [Int.emod_self, Int.zero_emod]
    rw [hx]

/-- C1: contrary to the spec, a non-raw send whose 200 response body is a
JSON object with neither an error nor a data field raises `TypeError`
(string plus dict concatenation on the line that builds the message), not
the intended malformed-envelope `EEException` carrying the raw content:
the parsed object has already replaced the raw content at that point. -/
theorem claim1_missing_data_type_error :
    ((send_ importState (fun _ => TransportResult.ok 200 "\x7b\x7d") "/info" [] "POST"
        false).result
      = Except.error (PyError.typeError "cannot concatenate str and dict objects"))
  ∧ ∀ j : Json,
      ¬(unwrapEnvelope (Json.obj []) = Except.error (PyError.eeException j)) := by
  constructor
  · rfl
  · intro j h
    exact PyError.noConfusion (Except.error.inj h)

/-- C2: for a non-raw send whose 200 response body parses as a JSON
object, an `error` field (even alongside a `data` field) makes the call
fail with a server-reported `EEException` carrying exactly that field's
value, and otherwise a present `data` field makes the call return exactly
that field's value. -/
theorem claim2_envelope_unwrap (cfg : Config) (path : String) (params : Params)
    (method content : String) (kvs : List (String × Json)) (base : String) (d : ℚ)
    (hm : method = "GET" ∨ method = "POST")
    (hbase : (initializeConfig cfg none none none).apiBaseUrl = some base)
    (hdl : pyFloat ((getP params "deadline").getD (PyVal.int DEFAULT_DEADLINE))
      = Except.ok d)
    (hparse : jsonLoads content = some (Json.obj kvs)) :
    (∀ v, getJ kvs "error" = some v →
      (send_ cfg (fun _ => TransportResult.ok 200 content) path params method
          false).result
        = Except.error (PyError.eeException v))
  ∧ (getJ kvs "error" = none → ∀ v, getJ kvs "data" = some v →
      (send_ cfg (fun _ => TransportResult.ok 200 content) path params method
          false).result
        = Except.ok (SendValue.data v)) := by
  have hres : (send_ cfg (fun _ => TransportResult.ok 200 content) path params method
      false).result
      = match unwrapEnvelope (Json.obj kvs) with
        | Except.error e => Except.error e
        | Except.ok v => Except.ok (SendValue.data v) := by
    rcases hm with hm | hm <;> subst hm
    · rw [send_unfold_get cfg _ path params false base d hbase hdl,
        runRequest_200_result _ _ content _ rfl, hparse]
    · rw [send_unfold_post cfg _ path params false base d hbase hdl,
        runRequest_200_result _ _ content _ rfl, hparse]
  constructor
  · intro v hv
    rw [hres, unwrapEnvelope_obj, hv]
  · intro hnone v hv
    rw [hres, unwrapEnvelope_obj, hnone, hv]

/-- Witness for C2 on the simulated response of the spec: status 200 with
the body carrying an error field valued at the string bad request. -/
theorem claim2_envelope_unwrap_witness :
    (send_ importState
        (fun _ => TransportResult.ok 200 "\x7b\"error\": \"bad request\"\x7d")
        "/x" [] "POST" false).result
      = Except.error (PyError.eeException (Json.str "bad request")) :=
  (claim2_envelope_unwrap importState "/x" [] "POST"
    "\x7b\"error\": \"bad request\"\x7d" [("error", Json.str "bad request")]
    DEFAULT_API_BASE_URL ((DEFAULT_DEADLINE : Int) : ℚ)
    (Or.inr rfl) rfl rfl rfl).1 (Json.str "bad request") rfl

/-- C5 counterexample: with a deadline entry that `float()` rejects, a
send with method PUT fails with the float conversion error raised before
the method check, not with the invalid-method error, though it still
performs no network call; this refutes the claim as universally stated
over all params. -/
theorem claim5_put_counterexample :
    ((send_ importState (fun _ => TransportResult.ok 200 "") "/info"
        [("deadline", PyVal.str "abc")] "PUT" false).result
      = Except.error (PyError.valueError "could not convert string to float: abc"))
  ∧ ¬((send_ importState (fun _ => TransportResult.ok 200 "") "/info"
        [("deadline", PyVal.str "abc")] "PUT" false).result
      = Except.error (PyError.eeException (Json.str "Unexpected request method: PUT")))
  ∧ (send_ importState (fun _ => TransportResult.ok 200 "") "/info"
        [("deadline", PyVal.str "abc")] "PUT" false).requests = [] := by
  refine ⟨rfl, ?_, rfl⟩
  intro h
  exact PyError.noConfusion (Except.error.inj h)

/-- C5 amended: provided the lazily-initialized API base URL is present
and the deadline entry (default 30) converts to float, a send whose
method is neither GET nor POST fails with the invalid-method error and
executes no HTTP request. -/
theorem claim5_invalid_method (cfg : Config) (transport : Request → TransportResult)
    (path : String) (params : Params) (method : String) (raw : Bool) (base : String)
    (d : ℚ)
    (hbase : (initializeConfig cfg none none none).apiBaseUrl = some base)
    (hdl : pyFloat ((getP params "deadline").getD (PyVal.int DEFAULT_DEADLINE))
      = Except.ok d)
    (hg : ¬(method = "GET")) (hp : ¬(method = "POST")) :
    ((send_ cfg transport path params method raw).result
      = Except.error
          (PyError.eeException (Json.str ("Unexpected request method: " ++ method))))
  ∧ (send_ cfg transport path params method raw).requests = [] := by
  rw [send_unfold_other cfg transport path params method raw base d hbase hdl hg hp]
  exact ⟨rfl, rfl⟩

/-- Witness for C5 amended: a PUT send with well-formed params fails with
the invalid-method error and no request is executed. -/
theorem claim5_invalid_method_witness :
    ((send_ importState (fun _ => TransportResult.ok 200 "") "/info" [] "PUT"
        false).result
      = Except.error (PyError.eeException (Json.str "Unexpected request method: PUT")))
  ∧ (send_ importState (fun _ => TransportResult.ok 200 "") "/info" [] "PUT"
        false).requests = [] :=
  claim5_invalid_method importState (fun _ => TransportResult.ok 200 "") "/info" []
    "PUT" false DEFAULT_API_BASE_URL ((DEFAULT_DEADLINE : Int) : ℚ) rfl rfl
    (by decide) (by decide)

/-- C7: when the size entry of the params is a sequence, the request dict
that `getThumbId` sends to the thumb path carries the elements joined with
the letter x, together with the id-request flag and the format tag; the
call itself is the send of that dict to the thumb path. -/
theorem claim7_getThumbId_size_join (cfg : Config)
    (transport : Request → TransportResult) (params : Params) (l : List PyVal)
    (hsize : getP params "size" = some (PyVal.list l)) :
    (getP (thumbRequestParams params) "size"
      = some (PyVal.str (joinSep "x" (l.map pyStr))))
  ∧ getP (thumbRequestParams params) "getid" = some (PyVal.str "1")
  ∧ getP (thumbRequestParams params) "json_format" = some (PyVal.str "v2")
  ∧ getThumbId cfg transport params =
      { result := (send_ cfg transport "/thumb" (thumbRequestParams params) "POST"
          false).result,
        finalParams := params,
        requests := (send_ cfg transport "/thumb" (thumbRequestParams params) "POST"
          false).requests } := by
  have h1 : ¬("size" = "getid") := by decide
  have h2 : ¬("size" = "json_format") := by decide
  have h3 : ¬("getid" = "json_format") := by decide
  have h4 : ¬("getid" = "size") := by decide
  have h5 : ¬("json_format" = "size") := by decide
  have hr : getP (setP (setP params "getid" (PyVal.str "1")) "json_format"
      (PyVal.str "v2")) "size" = some (PyVal.list l) := by
    rw [getP_setP_ne _ _ _ _ h2, getP_setP_ne _ _ _ _ h1]
    exact hsize
  refine ⟨?_, ?_, ?_, rfl⟩
  · unfold thumbRequestParams
    dsimp only
    rw [hr]
    exact getP_setP_self _ _ _
  · unfold thumbRequestParams
    dsimp only
    rw [hr, getP_setP_ne _ _ _ _ h4, getP_setP_ne _ _ _ _ h3]
    exact getP_setP_self _ _ _
  · unfold thumbRequestParams
    dsimp only
    rw [hr, getP_setP_ne _ _ _ _ h5]
    exact getP_setP_self _ _ _

/-- Witness for C7: size given as the list of 100 and 200 is sent as the
string 100x200, next to the id-request flag and format tag. -/
theorem claim7_getThumbId_size_join_witness :
    (getP (thumbRequestParams [("size", PyVal.list [PyVal.int 100, PyVal.int 200])])
      "size" = some (PyVal.str "100x200"))
  ∧ getP (thumbRequestParams [("size", PyVal.list [PyVal.int 100, PyVal.int 200])])
      "getid" = some (PyVal.str "1")
  ∧ getP (thumbRequestParams [("size", PyVal.list [PyVal.int 100, PyVal.int 200])])
      "json_format" = some (PyVal.str "v2") := by
  have h := claim7_getThumbId_size_join importState (fun _ => TransportResult.ok 200 "")
    [("size", PyVal.list [PyVal.int 100, PyVal.int 200])]
    [PyVal.int 100, PyVal.int 200] rfl
  exact ⟨h.1, h.2.1, h.2.2.1⟩

/-- C8: send removes the deadline entry (converted to float, defaulting
to 30) from the parameter dict before URL-encoding, uses it as the
request timeout, and the dict that is encoded into the request body or
query string no longer contains any deadline entry. -/
theorem claim8_deadline_consumed (cfg : Config)
    (transport : Request → TransportResult) (path : String) (params : Params)
    (method : String) (raw : Bool) (base : String) (d : ℚ)
    (hbase : (initializeConfig cfg none none none).apiBaseUrl = some base)
    (hdl : pyFloat ((getP params "deadline").getD (PyVal.int DEFAULT_DEADLINE))
      = Except.ok d) :
    ((send_ cfg transport path params method raw).finalParams
      = eraseP params "deadline")
  ∧ (∀ kv, kv ∈ eraseP params "deadline" → ¬(kv.1 = "deadline"))
  ∧ getP (eraseP params "deadline") "deadline" = none
  ∧ (∀ req, req ∈ (send_ cfg transport path params method raw).requests →
      req.timeout = d
      ∧ (req.method = "POST" →
          req.body = some (urlencode (eraseP params "deadline")))
      ∧ (req.method = "GET" →
          req.url = base ++ path ++ "?" ++ urlencode (eraseP params "deadline"))) := by
  refine ⟨send_finalParams_eq cfg transport path params method raw base hbase,
    fun kv h => mem_eraseP params "deadline" kv h,
    getP_eraseP params "deadline", ?_⟩
  by_cases hg : method = "GET"
  · subst hg
    rw [send_unfold_get cfg transport path params raw base d hbase hdl,
      runRequest_requests]
    intro req hreq
    rw [List.mem_singleton] at hreq
    subst hreq
    exact ⟨rfl, fun hh => absurd (show ("GET" : String) = "POST" from hh) (by decide),
      fun _ => rfl⟩
  · by_cases hp : method = "POST"
    · subst hp
      rw [send_unfold_post cfg transport path params raw base d hbase hdl,
        runRequest_requests]
      intro req hreq
      rw [List.mem_singleton] at hreq
      subst hreq
      exact ⟨rfl, fun _ => rfl,
        fun hh => absurd (show ("POST" : String) = "GET" from hh) (by decide)⟩
    · rw [send_unfold_other cfg transport path params method raw base d hbase hdl hg hp]
      intro req hreq
      simp at hreq

/-- Witness for C8: a deadline of 5 is consumed, leaving an empty dict. -/
theorem claim8_deadline_consumed_witness :
    (pyFloat ((getP [("deadline", PyVal.int 5)] "deadline").getD
        (PyVal.int DEFAULT_DEADLINE)) = Except.ok ((5 : Int) : ℚ))
  ∧ (send_ importState (fun _ => TransportResult.ok 200 "") "/value"
      [("deadline", PyVal.int 5)] "POST" false).finalParams = [] :=
  ⟨rfl,
    (claim8_deadline_consumed importState (fun _ => TransportResult.ok 200 "")
      "/value" [("deadline", PyVal.int 5)] "POST" false DEFAULT_API_BASE_URL
      ((5 : Int) : ℚ) rfl rfl).1⟩

/-- C9: `getThumbId` works on a copy and leaves the caller's dict
untouched, while `getMapId`, `getValue` and `getDownloadId` insert the
format tag into the caller's dict in place and the underlying send also
removes any deadline entry from the dict it is given, including when the
call ends in an error. -/
theorem claim9_param_mutation (cfg : Config)
    (transport : Request → TransportResult) (params : Params) (base : String) (d : ℚ)
    (hbase : (initializeConfig cfg none none none).apiBaseUrl = some base)
    (hdl : pyFloat ((getP params "deadline").getD (PyVal.int DEFAULT_DEADLINE))
      = Except.ok d) :
    (getThumbId cfg transport params).finalParams = params
  ∧ (getMapId cfg transport params).finalParams
      = eraseP (setP params "json_format" (PyVal.str "v2")) "deadline"
  ∧ (getValue cfg transport params).finalParams
      = eraseP (setP params "json_format" (PyVal.str "v2")) "deadline"
  ∧ (getDownloadId cfg transport params).finalParams
      = eraseP (setP params "json_format" (PyVal.str "v2")) "deadline"
  ∧ (∀ path method raw, (send_ cfg transport path params method raw).finalParams
      = eraseP params "deadline")
  ∧ (∀ msg, ((getMapId cfg (fun _ => TransportResult.exn msg) params).result
        = Except.error
            (PyError.eeException (Json.str ("Unexpected HTTP error: " ++ msg))))
      ∧ (getMapId cfg (fun _ => TransportResult.exn msg) params).finalParams
        = eraseP (setP params "json_format" (PyVal.str "v2")) "deadline") := by
  have hne : ¬("deadline" = "json_format") := by decide
  have hdl2 : pyFloat ((getP (setP params "json_format" (PyVal.str "v2"))
      "deadline").getD (PyVal.int DEFAULT_DEADLINE)) = Except.ok d := by
    rw [getP_setP_ne _ _ _ _ hne]
    exact hdl
  refine ⟨rfl,
    send_finalParams_eq cfg transport "/mapid" _ "POST" false base hbase,
    send_finalParams_eq cfg transport "/value" _ "POST" false base hbase,
    send_finalParams_eq cfg transport "/download" _ "POST" false base hbase,
    fun path method raw => send_finalParams_eq cfg transport path params method raw base hbase,
    ?_⟩
  intro msg
  constructor
  · unfold getMapId
    rw [send_unfold_post cfg _ "/mapid" _ false base d hbase hdl2]
    exact runRequest_exn_result _ _ msg _ _ rfl
  · exact send_finalParams_eq cfg _ "/mapid" _ "POST" false base hbase

/-- Witness for C9: with one ordinary entry, `getThumbId` returns the
dict unchanged while `getMapId` leaves the format tag inserted in it,
also when the transport raises. -/
theorem claim9_param_mutation_witness :
    ((getThumbId importState (fun _ => TransportResult.ok 200 "")
        [("k", PyVal.str "v")]).finalParams = [("k", PyVal.str "v")])
  ∧ (getMapId importState (fun _ => TransportResult.ok 200 "")
        [("k", PyVal.str "v")]).finalParams
      = [("k", PyVal.str "v"), ("json_format", PyVal.str "v2")]
  ∧ (getMapId importState (fun _ => TransportResult.exn "boom")
        [("k", PyVal.str "v")]).finalParams
      = [("k", PyVal.str "v"), ("json_format", PyVal.str "v2")] :=
  ⟨(claim9_param_mutation importState (fun _ => TransportResult.ok 200 "")
      [("k", PyVal.str "v")] DEFAULT_API_BASE_URL ((DEFAULT_DEADLINE : Int) : ℚ)
      rfl rfl).1,
    (claim9_param_mutation importState (fun _ => TransportResult.ok 200 "")
      [("k", PyVal.str "v")] DEFAULT_API_BASE_URL ((DEFAULT_DEADLINE : Int) : ℚ)
      rfl rfl).2.1,
    ((claim9_param_mutation importState (fun _ => TransportResult.exn "unused")
      [("k", PyVal.str "v")] DEFAULT_API_BASE_URL ((DEFAULT_DEADLINE : Int) : ℚ)
      rfl rfl).2.2.2.2.2 "boom").2⟩

/-- C10: with no tile base URL configured (before any initialize, or
after reset), the three URL helpers neither fail nor fall back to the
defaults: they format the absent value, yielding a URL whose base
component is the four-character string None. -/
theorem claim10_uninitialized_urls (cfg : Config) (m : MapId) (t : ThumbId)
    (dl : DownloadId) (x y : Int) (z : Nat) (h : cfg.tileBaseUrl = none) :
    (∃ rest, getTileUrl cfg m x y z = "None" ++ rest)
  ∧ makeThumbUrl cfg t
      = "None" ++ "/api/thumb?thumbid=" ++ t.thumbid ++ "&token=" ++ t.token
  ∧ makeDownloadUrl cfg dl
      = "None" ++ "/api/download?docid=" ++ dl.docid ++ "&token=" ++ dl.token
  ∧ (reset cfg).tileBaseUrl = none ∧ importState.tileBaseUrl = none := by
  refine ⟨?_, ?_, ?_, rfl, rfl⟩
  · refine ⟨"/map/" ++ m.mapid ++ "/" ++ toString z ++ "/" ++
      toString (if x % (2 ^ z : Int) < 0 then x % 2 ^ z + 2 ^ z else x % 2 ^ z) ++
      "/" ++ toString y ++ "?token=" ++ m.token, ?_⟩
    simp only [getTileUrl, h, formatS]
    simp [String.append_assoc]
    exact String.append_assoc "None" "/map/" _
  · simp [makeThumbUrl, h, formatS, String.append_assoc]
  · simp [makeDownloadUrl, h, formatS, String.append_assoc]

/-- Witness for C10 in the state reached by reset: the thumbnail URL
begins with the string None. -/
theorem claim10_uninitialized_urls_witness :
    makeThumbUrl (reset importState) { thumbid := "T", token := "K" }
      = "None/api/thumb?thumbid=T&token=K" :=
  (claim10_uninitialized_urls (reset importState) { mapid := "M", token := "N" }
    { thumbid := "T", token := "K" } { docid := "D", token := "E" } 0 0 0 rfl).2.1

end EEData
